import Mathlib

/-!
Verification development for the input-event mapping subsystem: the one-euro
smoothing filter (src/libs/input/OneEuroFilter.cpp), the client-side motion
resampler, the keyboard mapper state machine and the sensor mapper calibration.
C++ floats are modelled as real numbers; times are modelled as real (filter)
or rational (resampler) quantities.
-/

namespace InputCore

/-! ## One-euro smoothing filter (embedded from src/libs/input/OneEuroFilter.cpp) -/

/-- State of a `OneEuroFilter` instance: the three construction-time constants
and the four `std::optional` members, none of them set at construction. -/
structure OneEuroState where
  minCutoffFreq : ℝ
  beta : ℝ
  speedCutoffFreq : ℝ
  prevTimestamp : Option ℝ
  prevRawPosition : Option ℝ
  prevFilteredVelocity : Option ℝ
  prevFilteredPosition : Option ℝ

/-- The constructor `OneEuroFilter(minCutoffFreq, beta, speedCutoffFreq)`:
all optional members start empty. -/
def OneEuroState.init (minCutoffFreq beta speedCutoffFreq : ℝ) : OneEuroState :=
  { minCutoffFreq := minCutoffFreq, beta := beta, speedCutoffFreq := speedCutoffFreq,
    prevTimestamp := none, prevRawPosition := none,
    prevFilteredVelocity := none, prevFilteredPosition := none }

/-- Function `cutoffFreq(minCutoffFreq, beta, filteredSpeed)` from OneEuroFilter.cpp. -/
noncomputable def cutoffFreq (minCutoffFreq beta filteredSpeed : ℝ) : ℝ :=
  minCutoffFreq + beta * |filteredSpeed|

/-- Function `smoothingFactor(samplingPeriod, cutoffFreq)` from OneEuroFilter.cpp. -/
noncomputable def smoothingFactor (samplingPeriod cf : ℝ) : ℝ :=
  samplingPeriod / (samplingPeriod + 1 / (2 * Real.pi * cf))

/-- Function `lowPassFilter(rawPosition, prevFilteredPosition, smoothingFactor)`
from OneEuroFilter.cpp. -/
noncomputable def lowPassFilter (rawPosition prevFilteredPosition sf : ℝ) : ℝ :=
  sf * rawPosition + (1 - sf) * prevFilteredPosition

/-- The fatal-abort guard of `OneEuroFilter::filter`:
`LOG_IF(FATAL, mPrevFilteredPosition.has_value() && (timestamp <= *mPrevTimestamp))`. -/
def OneEuroState.abortsOn (s : OneEuroState) (timestamp : ℝ) : Prop :=
  match s.prevFilteredPosition, s.prevTimestamp with
  | some _, some pt => timestamp ≤ pt
  | _, _ => False

/-- The body of `OneEuroFilter::filter` past the abort guard, returning the
filtered position together with the updated member state. -/
noncomputable def OneEuroState.filterRun (s : OneEuroState) (timestamp rawPosition : ℝ) :
    ℝ × OneEuroState :=
  let samplingPeriod : ℝ :=
    match s.prevTimestamp with
    | some pt => timestamp - pt
    | none => 1
  let rawVelocity : ℝ :=
    match s.prevFilteredPosition with
    | some pp => (rawPosition - pp) / samplingPeriod
    | none => 0
  let speedSmoothingFactor : ℝ := smoothingFactor samplingPeriod s.speedCutoffFreq
  let filteredVelocity : ℝ :=
    match s.prevFilteredVelocity with
    | some pv => lowPassFilter rawVelocity pv speedSmoothingFactor
    | none => rawVelocity
  let positionCutoffFreq : ℝ := cutoffFreq s.minCutoffFreq s.beta filteredVelocity
  let positionSmoothingFactor : ℝ := smoothingFactor samplingPeriod positionCutoffFreq
  let filteredPosition : ℝ :=
    match s.prevFilteredPosition with
    | some pp => lowPassFilter rawPosition pp positionSmoothingFactor
    | none => rawPosition
  (filteredPosition,
   { s with
     prevTimestamp := some timestamp,
     prevRawPosition := some rawPosition,
     prevFilteredVelocity := some filteredVelocity,
     prevFilteredPosition := some filteredPosition })

/-- The position cutoff frequency computed inside `OneEuroFilter::filter`
(the adaptive cutoff `minCutoffFreq + beta * |filteredVelocity|`), named so
invariants can mention it. -/
noncomputable def OneEuroState.adaptiveCutoff (s : OneEuroState) (timestamp rawPosition : ℝ) :
    ℝ :=
  let samplingPeriod : ℝ :=
    match s.prevTimestamp with
    | some pt => timestamp - pt
    | none => 1
  let rawVelocity : ℝ :=
    match s.prevFilteredPosition with
    | some pp => (rawPosition - pp) / samplingPeriod
    | none => 0
  let filteredVelocity : ℝ :=
    match s.prevFilteredVelocity with
    | some pv => lowPassFilter rawVelocity pv (smoothingFactor samplingPeriod s.speedCutoffFreq)
    | none => rawVelocity
  cutoffFreq s.minCutoffFreq s.beta filteredVelocity

open Classical in
/-- Method `OneEuroFilter::filter(timestamp, rawPosition)`: `none` models the
fatal abort on a non-monotonic timestamp, otherwise the value and new state. -/
noncomputable def OneEuroState.filter (s : OneEuroState) (timestamp rawPosition : ℝ) :
    Option (ℝ × OneEuroState) :=
  if s.abortsOn timestamp then none else some (s.filterRun timestamp rawPosition)

/-! Spec-side formulas, written from the spec text (section 4.4) for the
refinement statement of claim C1. -/

/-- Spec formula: `α(period, cutoff) = period / (period + 1/(2π·cutoff))`. -/
noncomputable def specAlpha (period cutoff : ℝ) : ℝ :=
  period / (period + 1 / (2 * Real.pi * cutoff))

/-- Spec formula: `lowPass(raw, prev, α) = α·raw + (1−α)·prev`. -/
noncomputable def specLowPass (raw prev a : ℝ) : ℝ :=
  a * raw + (1 - a) * prev

/-- Spec formula for the filtered velocity after the first call:
`lowPass((rawValue − prevFilteredValue)/period, prevFilteredVelocity, α(period, speedCutoff))`. -/
noncomputable def specFilteredVelocity (period speedCutoff prevPos prevVel raw : ℝ) : ℝ :=
  specLowPass ((raw - prevPos) / period) prevVel (specAlpha period speedCutoff)

/-- Spec formula for the filtered value after the first call:
`lowPass(rawValue, prevFilteredValue, α(period, minCutoff + beta·|filteredVelocity|))`. -/
noncomputable def specFilteredValue (minCutoff beta speedCutoff period prevPos prevVel raw : ℝ) :
    ℝ :=
  specLowPass raw prevPos
    (specAlpha period (minCutoff + beta * |specFilteredVelocity period speedCutoff prevPos prevVel raw|))

/-! ## Motion resampler (spec section 4.3)

The `LegacyResampler` implementation is not part of this tree; only its test
`src/libs/input/tests/InputConsumerResampling_test.cpp` is. The definitions
below are modelled from the spec. Times are in milliseconds. -/

/-- Constant `RESAMPLE_LATENCY`, in milliseconds (spec: fixed constant, 5 ms). -/
def RESAMPLE_LATENCY : ℚ := 5

/-- Constant `RESAMPLE_MAX_PREDICTION`, in milliseconds (spec: fixed constant, 8 ms). -/
def RESAMPLE_MAX_PREDICTION : ℚ := 8

/-- One sample of a single-pointer motion stream. -/
structure MotionSample where
  eventTime : ℚ
  x : ℚ
  y : ℚ
  isResampled : Bool
deriving DecidableEq, Repr

/-- Modelled from the spec: steps 2-6 of the resampling algorithm, given the
second-last and last real samples and the caller-supplied target time.
The candidate time is the target minus `RESAMPLE_LATENCY`, clamped by
`RESAMPLE_MAX_PREDICTION` and by half the spacing of the last two real
samples; at or below the last real time no synthetic sample is produced,
otherwise the position is linearly extrapolated along the last segment. -/
def resampleSample (secondLast lastReal : MotionSample) (targetTime : ℚ) : Option MotionSample :=
  let c1 : ℚ := targetTime - RESAMPLE_LATENCY
  let c2 : ℚ := min c1 (lastReal.eventTime + RESAMPLE_MAX_PREDICTION)
  let c3 : ℚ := min c2 (lastReal.eventTime + (lastReal.eventTime - secondLast.eventTime) / 2)
  if c3 ≤ lastReal.eventTime then none
  else
    let scale : ℚ := (c3 - lastReal.eventTime) / (lastReal.eventTime - secondLast.eventTime)
    some { eventTime := c3,
           x := lastReal.x + (lastReal.x - secondLast.x) * scale,
           y := lastReal.y + (lastReal.y - secondLast.y) * scale,
           isResampled := true }

/-- Modelled from the spec: consuming a batch of real samples with a target
consumption time appends at most one synthetic sample to the unchanged batch;
fewer than two real samples means no resampling (step 1). -/
def consumeSamples (samples : List MotionSample) (targetTime : ℚ) : List MotionSample :=
  match samples.reverse with
  | lastReal :: secondLast :: _ =>
    match resampleSample secondLast lastReal targetTime with
    | some synthetic => samples ++ [synthetic]
    | none => samples
  | _ => samples

/-! ## Sensor mapper calibration (spec section 4.2)

The `SensorInputMapper` implementation is not part of this tree; only its test
`src/services/inputflinger/tests/SensorInputMapper_test.cpp` is. The
definitions below are modelled from the spec. -/

/-- The sensor types exercised by this subsystem's calibration rule. -/
inductive SensorType
  | accelerometer
  | gyroscope
deriving DecidableEq, Repr

/-- The gravity constant 9.80665, as an exact rational. -/
def GRAVITY_MS2_UNIT : ℚ := 980665 / 100000

/-- The degree-to-radian constant 0.0174533, as an exact rational. -/
def DEGREE_RADIAN_UNIT : ℚ := 174533 / 10000000

/-- Modelled from the spec: the per-sensor-type unit constant — the gravity
constant for accelerometers and the degree-to-radian constant for gyroscopes. -/
def unitConstant : SensorType → ℚ
  | .accelerometer => GRAVITY_MS2_UNIT
  | .gyroscope => DEGREE_RADIAN_UNIT

/-- Modelled from the spec: sensor calibration,
`physicalValue = rawValue / axisResolution * unitConstant`. -/
def calibrateAxisValue (ty : SensorType) (axisResolution rawValue : ℚ) : ℚ :=
  rawValue / axisResolution * unitConstant ty

/-- A physical axis bound at configuration time to a (sensorType, slotIndex)
pair, carrying the device-declared axis resolution. -/
structure SensorAxis where
  absCode : Nat
  sensorType : SensorType
  sensorDataIndex : Nat
  resolution : ℚ
deriving DecidableEq, Repr

/-- Modelled from the spec: on a report boundary the mapper emits, for a given
logical sensor type, the calibrated value of every axis bound to that type,
reading each axis's accumulated raw value from `raw`. -/
def emitSensorValues (axes : List SensorAxis) (raw : Nat → ℚ) (ty : SensorType) : List ℚ :=
  (axes.filter (fun a => a.sensorType = ty)).map
    (fun a => calibrateAxisValue ty a.resolution (raw a.absCode))

/-! ## Keyboard mapper (spec section 4.1)

The `KeyboardInputMapper` implementation is not part of this tree; only its
test `src/services/inputflinger/tests/KeyboardInputMapper_test.cpp` is. The
definitions below are modelled from the spec: a per-device state machine over
resolved key codes, a Reader Context holding the global lock-key state, and an
indicator (LED) output per device. Key-code and bitmask constants carry their
Android values. -/

def AKEYCODE_DPAD_UP : Nat := 19
def AKEYCODE_DPAD_DOWN : Nat := 20
def AKEYCODE_DPAD_LEFT : Nat := 21
def AKEYCODE_DPAD_RIGHT : Nat := 22
def AKEYCODE_CAPS_LOCK : Nat := 115
def AKEYCODE_SCROLL_LOCK : Nat := 116
def AKEYCODE_NUM_LOCK : Nat := 143
def AKEYCODE_SHIFT_LEFT : Nat := 59
def AKEYCODE_SHIFT_RIGHT : Nat := 60
def AKEYCODE_ALT_LEFT : Nat := 57
def AKEYCODE_ALT_RIGHT : Nat := 58
def AKEYCODE_CTRL_LEFT : Nat := 113
def AKEYCODE_CTRL_RIGHT : Nat := 114

def AMETA_ALT_ON : Nat := 0x02
def AMETA_ALT_LEFT_ON : Nat := 0x10
def AMETA_ALT_RIGHT_ON : Nat := 0x20
def AMETA_SHIFT_ON : Nat := 0x01
def AMETA_SHIFT_LEFT_ON : Nat := 0x40
def AMETA_SHIFT_RIGHT_ON : Nat := 0x80
def AMETA_CTRL_ON : Nat := 0x1000
def AMETA_CTRL_LEFT_ON : Nat := 0x2000
def AMETA_CTRL_RIGHT_ON : Nat := 0x4000
def AMETA_CAPS_LOCK_ON : Nat := 0x100000
def AMETA_NUM_LOCK_ON : Nat := 0x200000
def AMETA_SCROLL_LOCK_ON : Nat := 0x400000

def AKEY_EVENT_FLAG_FROM_SYSTEM : Nat := 0x08
def AKEY_EVENT_FLAG_CANCELED : Nat := 0x20

/-- The three lock keys. -/
inductive LockKey
  | caps
  | num
  | scroll
deriving DecidableEq, Repr

/-- Global lock-key state, owned by the Reader Context; a `LockState` value is
also used for the three indicator outputs of one device. -/
structure LockState where
  capsOn : Bool
  numOn : Bool
  scrollOn : Bool
deriving DecidableEq, Repr

def LockState.get (l : LockState) : LockKey → Bool
  | .caps => l.capsOn
  | .num => l.numOn
  | .scroll => l.scrollOn

def LockState.set (l : LockState) : LockKey → Bool → LockState
  | .caps, v => { l with capsOn := v }
  | .num, v => { l with numOn := v }
  | .scroll, v => { l with scrollOn := v }

/-- The meta-state bits contributed by the lock state. -/
def LockState.metaBits (l : LockState) : Nat :=
  (if l.capsOn then AMETA_CAPS_LOCK_ON else 0) |||
  (if l.numOn then AMETA_NUM_LOCK_ON else 0) |||
  (if l.scrollOn then AMETA_SCROLL_LOCK_ON else 0)

/-- The semantic key code of each lock key. -/
def LockKey.keyCode : LockKey → Nat
  | .caps => AKEYCODE_CAPS_LOCK
  | .num => AKEYCODE_NUM_LOCK
  | .scroll => AKEYCODE_SCROLL_LOCK

/-- The lock key a resolved key code toggles, if any. -/
def lockKeyOfKeyCode (keyCode : Nat) : Option LockKey :=
  if keyCode = AKEYCODE_CAPS_LOCK then some .caps
  else if keyCode = AKEYCODE_NUM_LOCK then some .num
  else if keyCode = AKEYCODE_SCROLL_LOCK then some .scroll
  else none

/-- Display rotations, in 90-degree steps. -/
inductive Rotation
  | rot0
  | rot90
  | rot180
  | rot270
deriving DecidableEq, Repr

/-- Modelled from the spec: the D-pad rotation table. 0° maps a key to itself
and each further 90° step rotates the four directional codes; non-directional
codes are unchanged. -/
def rotateKeyCode (keyCode : Nat) : Rotation → Nat
  | .rot0 => keyCode
  | .rot90 =>
    if keyCode = AKEYCODE_DPAD_UP then AKEYCODE_DPAD_LEFT
    else if keyCode = AKEYCODE_DPAD_RIGHT then AKEYCODE_DPAD_UP
    else if keyCode = AKEYCODE_DPAD_DOWN then AKEYCODE_DPAD_RIGHT
    else if keyCode = AKEYCODE_DPAD_LEFT then AKEYCODE_DPAD_DOWN
    else keyCode
  | .rot180 =>
    if keyCode = AKEYCODE_DPAD_UP then AKEYCODE_DPAD_DOWN
    else if keyCode = AKEYCODE_DPAD_RIGHT then AKEYCODE_DPAD_LEFT
    else if keyCode = AKEYCODE_DPAD_DOWN then AKEYCODE_DPAD_UP
    else if keyCode = AKEYCODE_DPAD_LEFT then AKEYCODE_DPAD_RIGHT
    else keyCode
  | .rot270 =>
    if keyCode = AKEYCODE_DPAD_UP then AKEYCODE_DPAD_RIGHT
    else if keyCode = AKEYCODE_DPAD_RIGHT then AKEYCODE_DPAD_DOWN
    else if keyCode = AKEYCODE_DPAD_DOWN then AKEYCODE_DPAD_LEFT
    else if keyCode = AKEYCODE_DPAD_LEFT then AKEYCODE_DPAD_UP
    else keyCode

/-- A key-down tracked in the pressed set: the physical scan code, the key
code that was resolved (and possibly rotated) on the DOWN edge, and the flags
the DOWN event carried. -/
structure KeyDown where
  scanCode : Nat
  keyCode : Nat
  flags : Nat
deriving DecidableEq, Repr

/-- Key-edge actions. -/
inductive KeyAction
  | down
  | up
deriving DecidableEq, Repr

/-- The observable fields of an emitted key event needed by the claims. -/
structure NotifyKeyArgs where
  action : KeyAction
  keyCode : Nat
  scanCode : Nat
  flags : Nat
deriving DecidableEq, Repr

/-- Per-device mapper state: the pressed-key set. -/
structure MapperState where
  pressed : List KeyDown
deriving DecidableEq, Repr

/-- Per-device mapper configuration. -/
structure MapperConfig where
  orientationAware : Bool
deriving DecidableEq, Repr

/-- The result of processing one key edge: the (possibly toggled) global lock
state, an indicator write to fan out to every device, the new mapper state and
the emitted events. -/
structure ProcessResult where
  ctx : LockState
  ledWrite : Option (LockKey × Bool)
  st : MapperState
  events : List NotifyKeyArgs
deriving Repr

/-- The meta-state bits contributed by one held modifier key. -/
def metaBitOfKeyCode (keyCode : Nat) : Nat :=
  if keyCode = AKEYCODE_SHIFT_LEFT then AMETA_SHIFT_LEFT_ON ||| AMETA_SHIFT_ON
  else if keyCode = AKEYCODE_SHIFT_RIGHT then AMETA_SHIFT_RIGHT_ON ||| AMETA_SHIFT_ON
  else if keyCode = AKEYCODE_ALT_LEFT then AMETA_ALT_LEFT_ON ||| AMETA_ALT_ON
  else if keyCode = AKEYCODE_ALT_RIGHT then AMETA_ALT_RIGHT_ON ||| AMETA_ALT_ON
  else if keyCode = AKEYCODE_CTRL_LEFT then AMETA_CTRL_LEFT_ON ||| AMETA_CTRL_ON
  else if keyCode = AKEYCODE_CTRL_RIGHT then AMETA_CTRL_RIGHT_ON ||| AMETA_CTRL_ON
  else 0

/-- The modifier bits contributed by a device's pressed-key set. -/
def MapperState.modifierMeta (st : MapperState) : Nat :=
  st.pressed.foldr (fun kd acc => metaBitOfKeyCode kd.keyCode ||| acc) 0

/-- Modelled from the spec: processing one key edge through a keyboard mapper.
Value 1 is a DOWN edge: a key already tracked down is ignored; otherwise the
resolved code is rotated when the device is orientation-aware, a lock key
toggles the Reader Context's global lock bit and requests an indicator write,
the key (with its resolved code and flags) enters the pressed set and one DOWN
event is emitted. Value 0 is an UP edge: it reuses the code cached on the DOWN
edge, removes the key from the pressed set and emits one UP event; an UP for a
key that is not down is ignored. Value 2 is a repeat: no event, no change. -/
def processKey (cfg : MapperConfig) (rot : Rotation) (ctx : LockState) (st : MapperState)
    (scanCode resolvedKeyCode value : Nat) : ProcessResult :=
  if value = 1 then
    match st.pressed.find? (fun kd => kd.scanCode == scanCode) with
    | some _ => ⟨ctx, none, st, []⟩
    | none =>
      let keyCode := if cfg.orientationAware then rotateKeyCode resolvedKeyCode rot
                     else resolvedKeyCode
      match lockKeyOfKeyCode keyCode with
      | some k =>
        let v := !(ctx.get k)
        ⟨ctx.set k v, some (k, v),
         ⟨⟨scanCode, keyCode, AKEY_EVENT_FLAG_FROM_SYSTEM⟩ :: st.pressed⟩,
         [⟨.down, keyCode, scanCode, AKEY_EVENT_FLAG_FROM_SYSTEM⟩]⟩
      | none =>
        ⟨ctx, none,
         ⟨⟨scanCode, keyCode, AKEY_EVENT_FLAG_FROM_SYSTEM⟩ :: st.pressed⟩,
         [⟨.down, keyCode, scanCode, AKEY_EVENT_FLAG_FROM_SYSTEM⟩]⟩
  else if value = 0 then
    match st.pressed.find? (fun kd => kd.scanCode == scanCode) with
    | some kd =>
      ⟨ctx, none, ⟨st.pressed.eraseP (fun kd2 => kd2.scanCode == scanCode)⟩,
       [⟨.up, kd.keyCode, scanCode, kd.flags⟩]⟩
    | none => ⟨ctx, none, st, []⟩
  else ⟨ctx, none, st, []⟩

/-- Modelled from the spec: running a list of (scanCode, resolvedKeyCode,
value) key edges through one mapper, accumulating the emitted events. -/
def runKeyEvents (cfg : MapperConfig) (rot : Rotation) :
    LockState → MapperState → List (Nat × Nat × Nat) → LockState × MapperState × List NotifyKeyArgs
  | ctx, st, [] => (ctx, st, [])
  | ctx, st, (sc, kc, v) :: rest =>
    let r := processKey cfg rot ctx st sc kc v
    let out := runKeyEvents cfg rot r.ctx r.st rest
    (out.1, out.2.1, r.events ++ out.2.2)

/-- The cross-device system: the Reader Context's global lock state, the
mapper state and indicator outputs of every device, and the set of attached
device ids. -/
structure KeyboardSystem where
  ctx : LockState
  deviceIds : List Nat
  mappers : Nat → MapperState
  leds : Nat → LockState

/-- Modelled from the spec: one key edge processed through the mapper of one
device; an indicator write triggered by a lock toggle fans out to the
indicator outputs of every device. -/
def KeyboardSystem.stepKey (sys : KeyboardSystem) (cfg : MapperConfig) (rot : Rotation)
    (devId scanCode resolvedKeyCode value : Nat) : KeyboardSystem × List NotifyKeyArgs :=
  let r := processKey cfg rot sys.ctx (sys.mappers devId) scanCode resolvedKeyCode value
  ({ ctx := r.ctx,
     deviceIds := sys.deviceIds,
     mappers := Function.update sys.mappers devId r.st,
     leds := fun d =>
       match r.ledWrite with
       | some (k, v) => (sys.leds d).set k v
       | none => sys.leds d },
   r.events)

/-- The meta-state query every mapper answers: the Reader Context's lock bits
joined with the union of modifier keys held across every attached device. -/
def KeyboardSystem.getMetaState (sys : KeyboardSystem) : Nat :=
  sys.ctx.metaBits |||
    sys.deviceIds.foldr (fun d acc => (sys.mappers d).modifierMeta ||| acc) 0

/-- Modelled from the spec: attaching a keyboard adopts the Reader Context's
current global lock state for its indicators instead of the hardware-reported
default (`hwDefaultLeds` is what the hardware reported, and is overridden). -/
def KeyboardSystem.attachDevice (sys : KeyboardSystem) (devId : Nat)
    (hwDefaultLeds : LockState) : KeyboardSystem :=
  { ctx := sys.ctx,
    deviceIds := devId :: sys.deviceIds,
    mappers := Function.update sys.mappers devId ⟨[]⟩,
    leds := Function.update (fun d => if d = devId then hwDefaultLeds else sys.leds d)
      devId sys.ctx }

/-- A complete toggle cycle of a key: a DOWN edge then an UP edge through the
mapper of one device. -/
def KeyboardSystem.keyCycle (sys : KeyboardSystem) (cfg : MapperConfig) (rot : Rotation)
    (devId scanCode resolvedKeyCode : Nat) : KeyboardSystem :=
  ((sys.stepKey cfg rot devId scanCode resolvedKeyCode 1).1.stepKey cfg rot devId scanCode
    resolvedKeyCode 0).1

/-- Modelled from the spec: device disable/removal synthesizes, for every key
in the pressed set, an UP event with the CANCELED flag added to the original
event's flags, then clears the set. -/
def MapperState.cancelDownKeys (st : MapperState) : MapperState × List NotifyKeyArgs :=
  (⟨[]⟩,
   st.pressed.map (fun kd => ⟨.up, kd.keyCode, kd.scanCode,
     kd.flags ||| AKEY_EVENT_FLAG_CANCELED⟩))

/-- Modelled from the spec: disabling (or removing) one device of the system. -/
def KeyboardSystem.disableDevice (sys : KeyboardSystem) (devId : Nat) :
    KeyboardSystem × List NotifyKeyArgs :=
  let r := (sys.mappers devId).cancelDownKeys
  ({ sys with mappers := Function.update sys.mappers devId r.1 }, r.2)

/-- A concrete filter state past its first call, used to instantiate the
filter theorems: constants (1, 0, 1) and all previous values 0. -/
def sampleFilterState : OneEuroState :=
  { minCutoffFreq := 1, beta := 0, speedCutoffFreq := 1,
    prevTimestamp := some 0, prevRawPosition := some 0,
    prevFilteredVelocity := some 0, prevFilteredPosition := some 0 }

/-- A concrete cross-device system with one modifier key held on every
device, used to instantiate the keyboard theorems. -/
def sampleSystemHeld : KeyboardSystem :=
  { ctx := ⟨false, false, false⟩,
    deviceIds := [0, 1],
    mappers := fun _ => ⟨[⟨42, AKEYCODE_SHIFT_LEFT, AKEY_EVENT_FLAG_FROM_SYSTEM⟩]⟩,
    leds := fun _ => ⟨false, false, false⟩ }

/-- A concrete cross-device system with nothing pressed and indicators in
sync with the global lock state, used to instantiate the keyboard theorems. -/
def sampleSystemIdle : KeyboardSystem :=
  { ctx := ⟨false, false, false⟩,
    deviceIds := [0, 1],
    mappers := fun _ => ⟨[]⟩,
    leds := fun _ => ⟨false, false, false⟩ }

/-! ## Theorems -/

/-- Claim C1: after the first call, `OneEuroFilter::filter` returns
`lowPass(rawValue, prevFilteredValue, α(period, minCutoff + beta·|filteredVelocity|))`
with `filteredVelocity = lowPass((rawValue − prevFilteredValue)/period,
prevFilteredVelocity, α(period, speedCutoff))`, for the spec's `α` and
`lowPass`; on the first call it returns `rawValue` and stores filtered
velocity 0. -/
theorem oneEuroFilter_matches_spec_formula (s : OneEuroState) (t raw pt pv pp : ℝ)
    (hts : s.prevTimestamp = some pt) (hvs : s.prevFilteredVelocity = some pv)
    (hps : s.prevFilteredPosition = some pp) (hlt : pt < t) :
    (s.filter t raw).map Prod.fst =
      some (specFilteredValue s.minCutoffFreq s.beta s.speedCutoffFreq (t - pt) pp pv raw) ∧
    ∀ mc b sc t0 r0 : ℝ,
      ((OneEuroState.init mc b sc).filter t0 r0).map
        (fun p => (p.1, p.2.prevFilteredVelocity)) = some (r0, some 0) := by
  constructor
  · have hnab : ¬ s.abortsOn t := by
      simp only [OneEuroState.abortsOn, hps, hts]
      exact not_le.mpr hlt
    simp only [OneEuroState.filter, if_neg hnab, OneEuroState.filterRun, hts, hvs, hps,
      Option.map_some', specFilteredValue, specLowPass, specAlpha, specFilteredVelocity,
      cutoffFreq, smoothingFactor, lowPassFilter]
  · intro mc b sc t0 r0
    simp [OneEuroState.filter, OneEuroState.abortsOn, OneEuroState.init,
      OneEuroState.filterRun]

theorem oneEuroFilter_matches_spec_formula_witness :
    sampleFilterState.prevTimestamp = some 0 ∧ (0 : ℝ) < 1 ∧
    ((sampleFilterState.filter 1 2).map Prod.fst =
      some (specFilteredValue sampleFilterState.minCutoffFreq sampleFilterState.beta
        sampleFilterState.speedCutoffFreq (1 - 0) 0 0 2) ∧
    ∀ mc b sc t0 r0 : ℝ,
      ((OneEuroState.init mc b sc).filter t0 r0).map
        (fun p => (p.1, p.2.prevFilteredVelocity)) = some (r0, some 0)) :=
  ⟨rfl, by norm_num,
   oneEuroFilter_matches_spec_formula sampleFilterState 1 2 0 0 0 rfl rfl rfl (by norm_num)⟩

/-- Claim C2: after the first call (the previous filtered position is set),
the filter takes the fatal-abort branch exactly when the supplied timestamp is
less than or equal to the previous one; with a strictly larger timestamp the
call returns normally. -/
theorem oneEuroFilter_abort_iff (s : OneEuroState) (t raw pt pp : ℝ)
    (hts : s.prevTimestamp = some pt) (hps : s.prevFilteredPosition = some pp) :
    (s.abortsOn t ↔ t ≤ pt) ∧ (s.filter t raw = none ↔ t ≤ pt) := by
  have habort : s.abortsOn t ↔ t ≤ pt := by
    simp only [OneEuroState.abortsOn, hps, hts]
  refine ⟨habort, ?_⟩
  by_cases h : t ≤ pt
  · simp [OneEuroState.filter, habort.mpr h, h]
  · have hnab : ¬ s.abortsOn t := fun hc => h (habort.mp hc)
    simp [OneEuroState.filter, hnab, h]

theorem oneEuroFilter_abort_iff_witness :
    sampleFilterState.prevTimestamp = some 0 ∧
    ((sampleFilterState.abortsOn 0 ↔ (0 : ℝ) ≤ 0) ∧
     (sampleFilterState.filter 0 5 = none ↔ (0 : ℝ) ≤ 0)) :=
  ⟨rfl, oneEuroFilter_abort_iff sampleFilterState 0 5 0 0 rfl rfl⟩

/-- Claim C10: after the first call, when the sampling period and the adaptive
cutoff frequency are positive, the smoothing factor lies strictly between 0
and 1, and the returned filtered position lies (inclusively) between the raw
input position and the previous filtered position. -/
theorem oneEuroFilter_no_overshoot (s : OneEuroState) (t raw pt pv pp : ℝ)
    (hts : s.prevTimestamp = some pt) (hvs : s.prevFilteredVelocity = some pv)
    (hps : s.prevFilteredPosition = some pp)
    (hper : 0 < t - pt) (hcut : 0 < s.adaptiveCutoff t raw) :
    (0 < smoothingFactor (t - pt) (s.adaptiveCutoff t raw) ∧
      smoothingFactor (t - pt) (s.adaptiveCutoff t raw) < 1) ∧
    ∀ out s2, s.filter t raw = some (out, s2) →
      min raw pp ≤ out ∧ out ≤ max raw pp := by
  have hq : 0 < 1 / (2 * Real.pi * s.adaptiveCutoff t raw) := by
    have hpi : 0 < Real.pi := Real.pi_pos
    positivity
  have halpha : 0 < smoothingFactor (t - pt) (s.adaptiveCutoff t raw) ∧
      smoothingFactor (t - pt) (s.adaptiveCutoff t raw) < 1 := by
    unfold smoothingFactor
    constructor
    · exact div_pos hper (by linarith)
    · rw [div_lt_one (by linarith)]
      linarith
  refine ⟨halpha, ?_⟩
  intro out s2 hrun
  have hnab : ¬ s.abortsOn t := by
    simp only [OneEuroState.abortsOn, hps, hts]
    exact not_le.mpr (by linarith)
  have hout : out = lowPassFilter raw pp
      (smoothingFactor (t - pt) (s.adaptiveCutoff t raw)) := by
    have : s.filter t raw = some (s.filterRun t raw) := by
      simp [OneEuroState.filter, hnab]
    rw [this] at hrun
    have h2 : s.filterRun t raw = (out, s2) := Option.some.inj hrun
    have h1 : out = (s.filterRun t raw).1 := by rw [h2]
    rw [h1]
    simp only [OneEuroState.filterRun, OneEuroState.adaptiveCutoff, hts, hvs, hps]
  obtain ⟨ha0, ha1⟩ := halpha
  set a := smoothingFactor (t - pt) (s.adaptiveCutoff t raw) with hadef
  rw [hout]
  unfold lowPassFilter
  rcases le_total raw pp with hle | hle
  · rw [min_eq_left hle, max_eq_right hle]
    constructor <;> nlinarith
  · rw [min_eq_right hle, max_eq_left hle]
    constructor <;> nlinarith

theorem oneEuroFilter_no_overshoot_witness :
    (0 : ℝ) < 1 - 0 ∧ 0 < sampleFilterState.adaptiveCutoff 1 2 ∧
    ((0 < smoothingFactor (1 - 0) (sampleFilterState.adaptiveCutoff 1 2) ∧
      smoothingFactor (1 - 0) (sampleFilterState.adaptiveCutoff 1 2) < 1) ∧
    ∀ out s2, sampleFilterState.filter 1 2 = some (out, s2) →
      min 2 0 ≤ out ∧ out ≤ max 2 0) :=
  ⟨by norm_num,
   by simp [OneEuroState.adaptiveCutoff, sampleFilterState, cutoffFreq],
   oneEuroFilter_no_overshoot sampleFilterState 1 2 0 0 0 rfl rfl rfl (by norm_num)
     (by simp [OneEuroState.adaptiveCutoff, sampleFilterState, cutoffFreq])⟩

/-- Claim C3: with real samples at t=10ms (x=20, y=30) and t=20ms (x=30, y=30)
and target time 35ms, consumption appends exactly one synthetic sample at
t=25ms (candidate 30ms clamped by the max-prediction bound to 28ms and then by
half the last sample spacing to 25ms) with extrapolated position x=35, y=30
and isResampled set, leaving the real samples unchanged. -/
theorem resampler_concrete_example :
    consumeSamples [⟨10, 20, 30, false⟩, ⟨20, 30, 30, false⟩] 35 =
      [⟨10, 20, 30, false⟩, ⟨20, 30, 30, false⟩, ⟨25, 35, 30, true⟩] ∧
    min (min (35 - RESAMPLE_LATENCY) (20 + RESAMPLE_MAX_PREDICTION)) (20 + (20 - 10) / 2) =
      (25 : ℚ) := by
  constructor
  · norm_num [consumeSamples, resampleSample, RESAMPLE_LATENCY, RESAMPLE_MAX_PREDICTION]
  · norm_num [RESAMPLE_LATENCY, RESAMPLE_MAX_PREDICTION]

/-- Claim C9: every value emitted by the sensor mapper for a sensor type is
`rawValue / axisResolution * unitConstant` for some axis bound to that type,
with the gravity constant for accelerometers and the degree-to-radian constant
for gyroscopes; in particular raw value 20000 at resolution 8192 under the
gravity constant gives about 23.9. -/
theorem sensor_calibration_formula (axes : List SensorAxis) (raw : Nat → ℚ)
    (ty : SensorType) (v : ℚ) (hv : v ∈ emitSensorValues axes raw ty) :
    (∃ a ∈ axes, a.sensorType = ty ∧ v = raw a.absCode / a.resolution * unitConstant ty) ∧
    (239 / 10 < calibrateAxisValue .accelerometer 8192 20000 ∧
      calibrateAxisValue .accelerometer 8192 20000 < 2395 / 100) := by
  constructor
  · simp only [emitSensorValues, List.mem_map, List.mem_filter,
      decide_eq_true_eq] at hv
    obtain ⟨a, ⟨hmem, hty⟩, hval⟩ := hv
    exact ⟨a, hmem, hty, by rw [← hval]; rfl⟩
  · constructor <;> norm_num [calibrateAxisValue, unitConstant, GRAVITY_MS2_UNIT]

theorem sensor_calibration_formula_witness :
    calibrateAxisValue .accelerometer 8192 20000 ∈
      emitSensorValues [⟨0, .accelerometer, 0, 8192⟩] (fun _ => 20000) .accelerometer ∧
    ((∃ a ∈ [(⟨0, .accelerometer, 0, 8192⟩ : SensorAxis)], a.sensorType = .accelerometer ∧
        calibrateAxisValue .accelerometer 8192 20000 =
          (fun _ => (20000 : ℚ)) a.absCode / a.resolution * unitConstant .accelerometer) ∧
     (239 / 10 < calibrateAxisValue .accelerometer 8192 20000 ∧
       calibrateAxisValue .accelerometer 8192 20000 < 2395 / 100)) :=
  ⟨by simp [emitSensorValues], by
    exact sensor_calibration_formula [⟨0, .accelerometer, 0, 8192⟩] (fun _ => 20000)
      .accelerometer (calibrateAxisValue .accelerometer 8192 20000)
      (by simp [emitSensorValues])⟩

/-! Helper lemmas about the keyboard-mapper model, shared by the keyboard
claims. -/

theorem LockState.get_set (l : LockState) (k : LockKey) (v : Bool) :
    (l.set k v).get k = v := by
  cases k <;> rfl

theorem LockState.set_set (l : LockState) (k : LockKey) (v w : Bool) :
    (l.set k v).set k w = l.set k w := by
  cases k <;> rfl

theorem LockState.set_get_self (l : LockState) (k : LockKey) :
    l.set k (l.get k) = l := by
  cases k <;> rfl

theorem rotateKeyCode_lockKey (k : LockKey) (r : Rotation) :
    rotateKeyCode k.keyCode r = k.keyCode := by
  cases k <;> cases r <;> decide

theorem lockKeyOfKeyCode_keyCode (k : LockKey) :
    lockKeyOfKeyCode k.keyCode = some k := by
  cases k <;> decide

theorem find?_scanCode_eq_none {l : List KeyDown} {sc : Nat}
    (h : ∀ kd ∈ l, kd.scanCode ≠ sc) :
    l.find? (fun kd => kd.scanCode == sc) = none := by
  rw [List.find?_eq_none]
  intro kd hkd
  simpa using h kd hkd

/-- Processing a repeat edge (value 2) changes nothing and emits nothing. -/
theorem processKey_repeat (cfg : MapperConfig) (rot : Rotation) (ctx : LockState)
    (st : MapperState) (sc kc : Nat) :
    processKey cfg rot ctx st sc kc 2 = ⟨ctx, none, st, []⟩ := rfl

/-- Processing a DOWN edge for a key that is not tracked down: the pressed set
gains the (possibly rotated) key and one DOWN event is emitted. -/
theorem processKey_down_parts (cfg : MapperConfig) (rot : Rotation) (ctx : LockState)
    (st : MapperState) (sc kc : Nat) (h : ∀ kd ∈ st.pressed, kd.scanCode ≠ sc) :
    (processKey cfg rot ctx st sc kc 1).st =
      ⟨⟨sc, if cfg.orientationAware then rotateKeyCode kc rot else kc,
        AKEY_EVENT_FLAG_FROM_SYSTEM⟩ :: st.pressed⟩ ∧
    (processKey cfg rot ctx st sc kc 1).events =
      [⟨.down, if cfg.orientationAware then rotateKeyCode kc rot else kc, sc,
        AKEY_EVENT_FLAG_FROM_SYSTEM⟩] := by
  have hf := find?_scanCode_eq_none h
  cases hk : lockKeyOfKeyCode (if cfg.orientationAware then rotateKeyCode kc rot else kc) <;>
    simp [processKey, hf, hk]

/-- Processing a DOWN edge for a lock key that is not tracked down: the
Reader Context bit toggles and the indicator write is requested. -/
theorem processKey_down_lock (cfg : MapperConfig) (rot : Rotation) (ctx : LockState)
    (st : MapperState) (sc : Nat) (k : LockKey)
    (h : ∀ kd ∈ st.pressed, kd.scanCode ≠ sc) :
    processKey cfg rot ctx st sc k.keyCode 1 =
      ⟨ctx.set k (!(ctx.get k)), some (k, !(ctx.get k)),
       ⟨⟨sc, k.keyCode, AKEY_EVENT_FLAG_FROM_SYSTEM⟩ :: st.pressed⟩,
       [⟨.down, k.keyCode, sc, AKEY_EVENT_FLAG_FROM_SYSTEM⟩]⟩ := by
  have hf := find?_scanCode_eq_none h
  simp [processKey, hf, rotateKeyCode_lockKey, lockKeyOfKeyCode_keyCode]

/-- Processing an UP edge whose scan code matches the most recently pressed
key: the cached key code and flags are reused and the entry is removed. -/
theorem processKey_up_head (cfg : MapperConfig) (rot : Rotation) (ctx : LockState)
    (sc kcached fl : Nat) (rest : List KeyDown) (kc : Nat) :
    processKey cfg rot ctx ⟨⟨sc, kcached, fl⟩ :: rest⟩ sc kc 0 =
      ⟨ctx, none, ⟨rest⟩, [⟨.up, kcached, sc, fl⟩]⟩ := by
  simp [processKey, List.find?_cons, List.eraseP_cons]

/-- A run of repeat edges is invisible: no state change, no events. -/
theorem runKeyEvents_repeat_prefix (cfg : MapperConfig) (rot : Rotation) (ctx : LockState)
    (st : MapperState) (sc kc : Nat) (rest : List (Nat × Nat × Nat)) (n : Nat) :
    runKeyEvents cfg rot ctx st (List.replicate n (sc, kc, 2) ++ rest) =
      runKeyEvents cfg rot ctx st rest := by
  induction n with
  | zero => rfl
  | succ m ih => simp [List.replicate_succ, runKeyEvents, processKey_repeat, ih]

/-- A complete DOWN-UP cycle of a lock key through one device of the system:
the global lock bit toggles, every device's indicator is written, and the
per-device pressed sets end where they started. -/
theorem keyCycle_lock (cfg : MapperConfig) (rot : Rotation) (devA sc : Nat) (k : LockKey)
    (sys : KeyboardSystem) (h : ∀ kd ∈ (sys.mappers devA).pressed, kd.scanCode ≠ sc) :
    sys.keyCycle cfg rot devA sc k.keyCode =
      { ctx := sys.ctx.set k (!(sys.ctx.get k)),
        deviceIds := sys.deviceIds,
        mappers := sys.mappers,
        leds := fun d => (sys.leds d).set k (!(sys.ctx.get k)) } := by
  unfold KeyboardSystem.keyCycle KeyboardSystem.stepKey
  rw [processKey_down_lock cfg rot sys.ctx (sys.mappers devA) sc k h]
  simp only [Function.update_same]
  rw [processKey_up_head cfg rot _ sc k.keyCode AKEY_EVENT_FLAG_FROM_SYSTEM
    (sys.mappers devA).pressed k.keyCode]
  simp only [Function.update_idem]
  congr 1
  exact Function.update_eq_self devA sys.mappers

/-- Two toggle cycles of a lock key through one device undo each other,
provided the key is not already tracked down and every indicator agrees with
the global lock state (which holds in every reachable configuration). -/
theorem keyCycle_involutive (cfg : MapperConfig) (rot : Rotation) (devA sc : Nat)
    (k : LockKey) (sys : KeyboardSystem)
    (h : ∀ kd ∈ (sys.mappers devA).pressed, kd.scanCode ≠ sc)
    (hsync : ∀ d, (sys.leds d).get k = sys.ctx.get k) :
    (sys.keyCycle cfg rot devA sc k.keyCode).keyCycle cfg rot devA sc k.keyCode = sys := by
  obtain ⟨ctx, ids, mappers, leds⟩ := sys
  dsimp only at h hsync ⊢
  rw [keyCycle_lock cfg rot devA sc k ⟨ctx, ids, mappers, leds⟩ h]
  dsimp only
  rw [keyCycle_lock cfg rot devA sc k
      ⟨ctx.set k (!(ctx.get k)), ids, mappers,
        fun d => (leds d).set k (!(ctx.get k))⟩ h]
  dsimp only
  simp only [KeyboardSystem.mk.injEq]
  have hv : ((ctx.set k (!(ctx.get k))).get k) = !(ctx.get k) := LockState.get_set ctx k _
  refine ⟨?_, trivial, trivial, ?_⟩
  · rw [hv, LockState.set_set, Bool.not_not, LockState.set_get_self]
  · funext d
    rw [hv, LockState.set_set, Bool.not_not, ← hsync d, LockState.set_get_self]

/-- Claim C4: for an orientation-aware keyboard the DOWN edge of a D-pad key
is remapped per the rotation table (identity at 0°, one step per further 90°),
and the UP edge always carries the key code cached on the DOWN edge, even
when the rotation changed in between. -/
theorem dpad_rotation_table_and_pairing :
    (rotateKeyCode AKEYCODE_DPAD_UP .rot0 = AKEYCODE_DPAD_UP ∧
     rotateKeyCode AKEYCODE_DPAD_RIGHT .rot0 = AKEYCODE_DPAD_RIGHT ∧
     rotateKeyCode AKEYCODE_DPAD_DOWN .rot0 = AKEYCODE_DPAD_DOWN ∧
     rotateKeyCode AKEYCODE_DPAD_LEFT .rot0 = AKEYCODE_DPAD_LEFT ∧
     rotateKeyCode AKEYCODE_DPAD_UP .rot90 = AKEYCODE_DPAD_LEFT ∧
     rotateKeyCode AKEYCODE_DPAD_RIGHT .rot90 = AKEYCODE_DPAD_UP ∧
     rotateKeyCode AKEYCODE_DPAD_DOWN .rot90 = AKEYCODE_DPAD_RIGHT ∧
     rotateKeyCode AKEYCODE_DPAD_LEFT .rot90 = AKEYCODE_DPAD_DOWN ∧
     rotateKeyCode AKEYCODE_DPAD_UP .rot180 = AKEYCODE_DPAD_DOWN ∧
     rotateKeyCode AKEYCODE_DPAD_RIGHT .rot180 = AKEYCODE_DPAD_LEFT ∧
     rotateKeyCode AKEYCODE_DPAD_DOWN .rot180 = AKEYCODE_DPAD_UP ∧
     rotateKeyCode AKEYCODE_DPAD_LEFT .rot180 = AKEYCODE_DPAD_RIGHT ∧
     rotateKeyCode AKEYCODE_DPAD_UP .rot270 = AKEYCODE_DPAD_RIGHT ∧
     rotateKeyCode AKEYCODE_DPAD_RIGHT .rot270 = AKEYCODE_DPAD_DOWN ∧
     rotateKeyCode AKEYCODE_DPAD_DOWN .rot270 = AKEYCODE_DPAD_LEFT ∧
     rotateKeyCode AKEYCODE_DPAD_LEFT .rot270 = AKEYCODE_DPAD_UP) ∧
    ∀ (rot1 rot2 : Rotation) (ctx : LockState) (st : MapperState) (sc kc : Nat),
      (∀ kd ∈ st.pressed, kd.scanCode ≠ sc) →
      (processKey ⟨true⟩ rot1 ctx st sc kc 1).events =
        [⟨.down, rotateKeyCode kc rot1, sc, AKEY_EVENT_FLAG_FROM_SYSTEM⟩] ∧
      (processKey ⟨true⟩ rot2 (processKey ⟨true⟩ rot1 ctx st sc kc 1).ctx
          (processKey ⟨true⟩ rot1 ctx st sc kc 1).st sc kc 0).events =
        [⟨.up, rotateKeyCode kc rot1, sc, AKEY_EVENT_FLAG_FROM_SYSTEM⟩] := by
  refine ⟨by decide, ?_⟩
  intro rot1 rot2 ctx st sc kc h
  obtain ⟨hst, hev⟩ := processKey_down_parts ⟨true⟩ rot1 ctx st sc kc h
  refine ⟨by simpa using hev, ?_⟩
  rw [hst]
  simp [processKey_up_head]

theorem dpad_rotation_table_and_pairing_witness :
    (∀ kd ∈ (⟨[]⟩ : MapperState).pressed, kd.scanCode ≠ 103) ∧
    ((processKey ⟨true⟩ .rot270 ⟨false, false, false⟩ ⟨[]⟩ 103 AKEYCODE_DPAD_UP 1).events =
      [⟨.down, rotateKeyCode AKEYCODE_DPAD_UP .rot270, 103, AKEY_EVENT_FLAG_FROM_SYSTEM⟩] ∧
    (processKey ⟨true⟩ .rot180
        (processKey ⟨true⟩ .rot270 ⟨false, false, false⟩ ⟨[]⟩ 103 AKEYCODE_DPAD_UP 1).ctx
        (processKey ⟨true⟩ .rot270 ⟨false, false, false⟩ ⟨[]⟩ 103 AKEYCODE_DPAD_UP 1).st
        103 AKEYCODE_DPAD_UP 0).events =
      [⟨.up, rotateKeyCode AKEYCODE_DPAD_UP .rot270, 103, AKEY_EVENT_FLAG_FROM_SYSTEM⟩]) :=
  ⟨by simp,
   dpad_rotation_table_and_pairing.2 .rot270 .rot180 ⟨false, false, false⟩ ⟨[]⟩ 103
     AKEYCODE_DPAD_UP (by simp)⟩

/-- Claim C5: lock-key state is global to the Reader Context. A complete
toggle of a lock key through any one device flips the global lock bit, the
context-wide meta-state query (the one every mapper answers) reflects the
toggled bit while the held-modifier union is unchanged, the indicator of
every device is written with the new value, and a device attached afterwards
adopts the current global lock state instead of its hardware default. -/
theorem lock_state_global_across_devices (cfg : MapperConfig) (rot : Rotation)
    (devA sc : Nat) (k : LockKey) (sys : KeyboardSystem)
    (h : ∀ kd ∈ (sys.mappers devA).pressed, kd.scanCode ≠ sc) :
    ((sys.keyCycle cfg rot devA sc k.keyCode).ctx = sys.ctx.set k (!(sys.ctx.get k))) ∧
    ((sys.keyCycle cfg rot devA sc k.keyCode).getMetaState =
      (sys.ctx.set k (!(sys.ctx.get k))).metaBits |||
        sys.deviceIds.foldr (fun d acc => (sys.mappers d).modifierMeta ||| acc) 0) ∧
    (∀ d, ((sys.keyCycle cfg rot devA sc k.keyCode).leds d).get k = !(sys.ctx.get k)) ∧
    (∀ newId hw,
      ((sys.keyCycle cfg rot devA sc k.keyCode).attachDevice newId hw).leds newId =
        (sys.keyCycle cfg rot devA sc k.keyCode).ctx ∧
      ((sys.keyCycle cfg rot devA sc k.keyCode).attachDevice newId hw).ctx =
        (sys.keyCycle cfg rot devA sc k.keyCode).ctx) := by
  rw [keyCycle_lock cfg rot devA sc k sys h]
  refine ⟨rfl, rfl, fun d => LockState.get_set _ k _, fun newId hw => ⟨?_, rfl⟩⟩
  simp [KeyboardSystem.attachDevice]

theorem lock_state_global_across_devices_witness :
    (∀ kd ∈ (sampleSystemIdle.mappers 0).pressed, kd.scanCode ≠ 58) ∧
    ((sampleSystemIdle.keyCycle ⟨false⟩ .rot0 0 58 LockKey.caps.keyCode).ctx =
        sampleSystemIdle.ctx.set .caps (!(sampleSystemIdle.ctx.get .caps)) ∧
      ((sampleSystemIdle.keyCycle ⟨false⟩ .rot0 0 58 LockKey.caps.keyCode).getMetaState =
        (sampleSystemIdle.ctx.set .caps (!(sampleSystemIdle.ctx.get .caps))).metaBits |||
          sampleSystemIdle.deviceIds.foldr
            (fun d acc => (sampleSystemIdle.mappers d).modifierMeta ||| acc) 0) ∧
      (∀ d, ((sampleSystemIdle.keyCycle ⟨false⟩ .rot0 0 58 LockKey.caps.keyCode).leds d).get .caps =
        !(sampleSystemIdle.ctx.get .caps)) ∧
      ∀ newId hw,
        (((sampleSystemIdle.keyCycle ⟨false⟩ .rot0 0 58 LockKey.caps.keyCode).attachDevice
            newId hw).leds newId =
          (sampleSystemIdle.keyCycle ⟨false⟩ .rot0 0 58 LockKey.caps.keyCode).ctx) ∧
        ((sampleSystemIdle.keyCycle ⟨false⟩ .rot0 0 58 LockKey.caps.keyCode).attachDevice
            newId hw).ctx =
          (sampleSystemIdle.keyCycle ⟨false⟩ .rot0 0 58 LockKey.caps.keyCode).ctx) :=
  ⟨by simp [sampleSystemIdle],
   lock_state_global_across_devices ⟨false⟩ .rot0 0 58 .caps sampleSystemIdle
     (by simp [sampleSystemIdle])⟩

/-- Claim C6: an even number of complete DOWN-UP toggle cycles of a lock key
through a keyboard mapper restores both the meta state and every device's
indicator state to their values before the first toggle (for configurations
whose indicators agree with the global lock state, as after initialization). -/
theorem even_lock_toggle_cycles_restore (cfg : MapperConfig) (rot : Rotation)
    (devA sc : Nat) (k : LockKey) (n : Nat) (sys : KeyboardSystem)
    (h : ∀ kd ∈ (sys.mappers devA).pressed, kd.scanCode ≠ sc)
    (hsync : ∀ d, (sys.leds d).get k = sys.ctx.get k) :
    ((fun s : KeyboardSystem => s.keyCycle cfg rot devA sc k.keyCode)^[2 * n] sys).getMetaState
        = sys.getMetaState ∧
    ∀ d, ((fun s : KeyboardSystem => s.keyCycle cfg rot devA sc k.keyCode)^[2 * n] sys).leds d
        = sys.leds d := by
  have hiter :
      (fun s : KeyboardSystem => s.keyCycle cfg rot devA sc k.keyCode)^[2 * n] sys = sys := by
    induction n with
    | zero => rfl
    | succ m ih =>
      rw [show 2 * (m + 1) = 2 * m + 2 by ring, Function.iterate_add_apply]
      have h2 : (fun s : KeyboardSystem => s.keyCycle cfg rot devA sc k.keyCode)^[2] sys = sys := by
        show (sys.keyCycle cfg rot devA sc k.keyCode).keyCycle cfg rot devA sc k.keyCode = sys
        exact keyCycle_involutive cfg rot devA sc k sys h hsync
      rw [h2, ih]
  rw [hiter]
  exact ⟨rfl, fun d => rfl⟩

theorem even_lock_toggle_cycles_restore_witness :
    (∀ kd ∈ (sampleSystemIdle.mappers 0).pressed, kd.scanCode ≠ 69) ∧
    (∀ d, (sampleSystemIdle.leds d).get .num = sampleSystemIdle.ctx.get .num) ∧
    (((fun s : KeyboardSystem => s.keyCycle ⟨false⟩ .rot0 0 69 LockKey.num.keyCode)^[2 * 1]
          sampleSystemIdle).getMetaState = sampleSystemIdle.getMetaState ∧
      ∀ d, ((fun s : KeyboardSystem => s.keyCycle ⟨false⟩ .rot0 0 69 LockKey.num.keyCode)^[2 * 1]
          sampleSystemIdle).leds d = sampleSystemIdle.leds d) :=
  ⟨by simp [sampleSystemIdle], by simp [sampleSystemIdle],
   even_lock_toggle_cycles_restore ⟨false⟩ .rot0 0 69 .num 1 sampleSystemIdle
     (by simp [sampleSystemIdle]) (by simp [sampleSystemIdle])⟩

/-- Claim C7: a DOWN edge, N ≥ 0 repeat edges and an UP edge on one key emit
exactly two events — one DOWN and one UP — and the repeat edges emit nothing
and change neither the lock state nor the pressed set. -/
theorem repeat_edges_discarded (cfg : MapperConfig) (rot : Rotation) (ctx : LockState)
    (st : MapperState) (sc kc : Nat) (n : Nat)
    (h : ∀ kd ∈ st.pressed, kd.scanCode ≠ sc) :
    (runKeyEvents cfg rot ctx st
        ((sc, kc, 1) :: (List.replicate n (sc, kc, 2) ++ [(sc, kc, 0)]))).2.2 =
      [⟨.down, if cfg.orientationAware then rotateKeyCode kc rot else kc, sc,
         AKEY_EVENT_FLAG_FROM_SYSTEM⟩,
       ⟨.up, if cfg.orientationAware then rotateKeyCode kc rot else kc, sc,
         AKEY_EVENT_FLAG_FROM_SYSTEM⟩] ∧
    ∀ (ctx1 : LockState) (st1 : MapperState),
      runKeyEvents cfg rot ctx1 st1 (List.replicate n (sc, kc, 2)) = (ctx1, st1, []) := by
  have hrep : ∀ (ctx1 : LockState) (st1 : MapperState),
      runKeyEvents cfg rot ctx1 st1 (List.replicate n (sc, kc, 2)) = (ctx1, st1, []) := by
    intro ctx1 st1
    have hpre := runKeyEvents_repeat_prefix cfg rot ctx1 st1 sc kc [] n
    simpa [runKeyEvents] using hpre
  refine ⟨?_, hrep⟩
  obtain ⟨hst, hev⟩ := processKey_down_parts cfg rot ctx st sc kc h
  simp only [runKeyEvents]
  rw [hst, hev, runKeyEvents_repeat_prefix]
  simp [runKeyEvents, processKey_up_head]

theorem repeat_edges_discarded_witness :
    (∀ kd ∈ (⟨[]⟩ : MapperState).pressed, kd.scanCode ≠ 11) ∧
    ((runKeyEvents ⟨false⟩ .rot0 ⟨false, false, false⟩ ⟨[]⟩
        ((11, 7, 1) :: (List.replicate 3 (11, 7, 2) ++ [(11, 7, 0)]))).2.2 =
      [⟨.down, if (⟨false⟩ : MapperConfig).orientationAware then rotateKeyCode 7 .rot0 else 7,
         11, AKEY_EVENT_FLAG_FROM_SYSTEM⟩,
       ⟨.up, if (⟨false⟩ : MapperConfig).orientationAware then rotateKeyCode 7 .rot0 else 7,
         11, AKEY_EVENT_FLAG_FROM_SYSTEM⟩] ∧
    ∀ (ctx1 : LockState) (st1 : MapperState),
      runKeyEvents ⟨false⟩ .rot0 ctx1 st1 (List.replicate 3 (11, 7, 2)) = (ctx1, st1, [])) :=
  ⟨by simp,
   repeat_edges_discarded ⟨false⟩ .rot0 ⟨false, false, false⟩ ⟨[]⟩ 11 7 3 (by simp)⟩

/-- Claim C8: disabling or removing a device synthesizes, for every key in
its pressed set, an UP event whose flags are the original flags with the
CANCELED flag added; afterwards the pressed set is empty and contributes no
modifier bits to the meta state. -/
theorem disable_device_cancels_pressed (sys : KeyboardSystem) (devId : Nat) :
    (((sys.disableDevice devId).1.mappers devId).pressed = [] ∧
     ((sys.disableDevice devId).1.mappers devId).modifierMeta = 0) ∧
    ((sys.disableDevice devId).2.length = (sys.mappers devId).pressed.length ∧
     ∀ i (hi : i < (sys.disableDevice devId).2.length),
       ∃ hp : i < (sys.mappers devId).pressed.length,
         ((sys.disableDevice devId).2.get ⟨i, hi⟩).action = .up ∧
         ((sys.disableDevice devId).2.get ⟨i, hi⟩).keyCode =
           (((sys.mappers devId).pressed.get ⟨i, hp⟩)).keyCode ∧
         ((sys.disableDevice devId).2.get ⟨i, hi⟩).scanCode =
           (((sys.mappers devId).pressed.get ⟨i, hp⟩)).scanCode ∧
         ((sys.disableDevice devId).2.get ⟨i, hi⟩).flags =
           (((sys.mappers devId).pressed.get ⟨i, hp⟩)).flags ||| AKEY_EVENT_FLAG_CANCELED) := by
  refine ⟨⟨?_, ?_⟩, ?_, ?_⟩
  · simp [KeyboardSystem.disableDevice, MapperState.cancelDownKeys]
  · simp [KeyboardSystem.disableDevice, MapperState.cancelDownKeys, MapperState.modifierMeta]
  · simp [KeyboardSystem.disableDevice, MapperState.cancelDownKeys]
  · intro i hi
    have hp : i < (sys.mappers devId).pressed.length := by
      simpa [KeyboardSystem.disableDevice, MapperState.cancelDownKeys] using hi
    exact ⟨hp, by simp [KeyboardSystem.disableDevice, MapperState.cancelDownKeys]⟩

theorem disable_device_cancels_pressed_witness :
    (((sampleSystemHeld.disableDevice 0).1.mappers 0).pressed = [] ∧
     ((sampleSystemHeld.disableDevice 0).1.mappers 0).modifierMeta = 0) ∧
    ((sampleSystemHeld.disableDevice 0).2.length =
        (sampleSystemHeld.mappers 0).pressed.length ∧
     ∀ i (hi : i < (sampleSystemHeld.disableDevice 0).2.length),
       ∃ hp : i < (sampleSystemHeld.mappers 0).pressed.length,
         ((sampleSystemHeld.disableDevice 0).2.get ⟨i, hi⟩).action = .up ∧
         ((sampleSystemHeld.disableDevice 0).2.get ⟨i, hi⟩).keyCode =
           (((sampleSystemHeld.mappers 0).pressed.get ⟨i, hp⟩)).keyCode ∧
         ((sampleSystemHeld.disableDevice 0).2.get ⟨i, hi⟩).scanCode =
           (((sampleSystemHeld.mappers 0).pressed.get ⟨i, hp⟩)).scanCode ∧
         ((sampleSystemHeld.disableDevice 0).2.get ⟨i, hi⟩).flags =
           (((sampleSystemHeld.mappers 0).pressed.get ⟨i, hp⟩)).flags |||
             AKEY_EVENT_FLAG_CANCELED) :=
  disable_device_cancels_pressed sampleSystemHeld 0

end InputCore
